import Mathlib

/-! Verification of the basketball-trajectory simulator
(`src/main.rs`, `src/svg_gen.rs`).

Embedding conventions:
* `f64` values are modelled as exact rationals (`ℚ`); `u32`/`usize` as `ℕ`.
* Panicking paths (`assert!`, `usize` underflow, out-of-bounds indexing)
  are modelled by `Option`, where `none` stands for a panic.
* `f64::cos` / `f64::sin` are abstracted as function parameters
  `cosF sinF : ℚ → ℚ`; the code applies them to the angle exactly as the
  source does (no unit conversion).
* The source computes `dist = sqrt(…)` and tests `dist <= 0.1`; since
  `Real.sqrt s ≤ c ↔ s ≤ c ^ 2` for `0 ≤ c` (shown in
  `sqrt_le_iff_sq_le` below), the embedding tests the squared distance
  against the squared radius.
-/

/-- Embeds `const GRAVITY: f64 = 9.807` (src/main.rs:41). -/
def GRAVITY : ℚ := 9807 / 1000

/-- Embeds `const MIN_BALL_DELTA_TO_BASKET_CENTER: f64 = 0.1` (src/main.rs:42). -/
def MIN_BALL_DELTA_TO_BASKET_CENTER : ℚ := 1 / 10

/-- One element of the trajectory vector: `(f64, (f64, f64), bool)`
(time, position, "entered the basket at this instant"). -/
abbrev Sample : Type := ℚ × (ℚ × ℚ) × Bool

/-- Embeds `type Trajectory = (bool, Vec<(f64, (f64, f64), bool)>)` (src/main.rs:44). -/
abbrev Trajectory : Type := Bool × List Sample

/-- Embeds `get_time_steps` (src/main.rs:193-205): pushes `0.0`, then
`delta_t * step` for `step in 1..(inner_steps + 1)`, then `simulation_sec`. -/
def get_time_steps (simulation_sec : ℚ) (num_steps : ℕ) : List ℚ :=
  let inner_steps : ℕ := num_steps - 1
  let delta_t : ℚ := simulation_sec / (inner_steps : ℚ)
  [(0 : ℚ)] ++ (List.range' 1 inner_steps).map (fun (step : ℕ) => delta_t * (step : ℚ))
    ++ [simulation_sec]

/-- Squared version of `euclidean_distance` (src/main.rs:207-211); the
source returns `sqrt` of this value and only ever compares it with a
non-negative constant. -/
def euclidean_distance_sq (p_x p_y p_z q_x q_y q_z : ℚ) : ℚ :=
  (p_x - q_x) ^ 2 + (p_y - q_y) ^ 2 + (p_z - q_z) ^ 2

/-- Justification for the squared-distance embedding: comparing
`Real.sqrt s` with a non-negative bound is the same as comparing `s`
with the squared bound. -/
theorem sqrt_le_iff_sq_le (s c : ℝ) (hc : 0 ≤ c) : Real.sqrt s ≤ c ↔ s ≤ c ^ 2 :=
  Real.sqrt_le_left hc

/-- The ball position computed in the loop body of `basketball_2d`
(src/main.rs:166-167):
`ball_x = x_0 + v_0_x * t`, `ball_y = y_0 + v_0_y * t - (1.0/2.0) * GRAVITY * t * t`. -/
def ball_point (x_0 y_0 v_0_x v_0_y t : ℚ) : ℚ × ℚ :=
  (x_0 + v_0_x * t, y_0 + v_0_y * t - (1 / 2) * GRAVITY * t * t)

/-- The per-instant basket test of `basketball_2d` (src/main.rs:168-172):
`dist <= MIN_BALL_DELTA_TO_BASKET_CENTER`, with the distance squared as
explained at `euclidean_distance_sq`. -/
def enters_basket (x_0 y_0 v_0_x v_0_y basket_pos_x basket_pos_y t : ℚ) : Bool :=
  decide (euclidean_distance_sq (ball_point x_0 y_0 v_0_x v_0_y t).1
      (ball_point x_0 y_0 v_0_x v_0_y t).2 0 basket_pos_x basket_pos_y 0
    ≤ MIN_BALL_DELTA_TO_BASKET_CENTER ^ 2)

/-- One iteration of the `for t in time_steps` loop of `basketball_2d`
(src/main.rs:165-179), acting on the state
`(flag_into_the_basket, trajectory_2d)`. -/
def basketball_step (x_0 y_0 v_0_x v_0_y basket_pos_x basket_pos_y : ℚ)
    (acc : Bool × List Sample) (t : ℚ) : Bool × List Sample :=
  let ball := ball_point x_0 y_0 v_0_x v_0_y t
  let flag_enter_instant := enters_basket x_0 y_0 v_0_x v_0_y basket_pos_x basket_pos_y t
  let flag := acc.1 || flag_enter_instant
  if 0 ≤ ball.2 then (flag, acc.2 ++ [(t, ball, flag_enter_instant)]) else (flag, acc.2)

/-- Embeds `basketball_2d` (src/main.rs:140-181).  The three `assert!`s
(src/main.rs:147-151) are modelled by the `none` branches. -/
def basketball_2d (cosF sinF : ℚ → ℚ)
    (pos_0_x pos_0_y v_0 teta_0 basket_pos_x basket_pos_y simulation_sec : ℚ)
    (num_steps : ℕ) : Option Trajectory :=
  if ¬ 0 < v_0 then none
  else if ¬ 0 < simulation_sec then none
  else if ¬ 2 < num_steps then none
  else
    let v_0_x := v_0 * cosF teta_0
    let v_0_y := v_0 * sinF teta_0
    let time_steps := get_time_steps simulation_sec num_steps
    some (time_steps.foldl
      (basketball_step pos_0_x pos_0_y v_0_x v_0_y basket_pos_x basket_pos_y) (false, []))

/-- Retention rule of the loop (src/main.rs:176-178): the sample is pushed
exactly when `ball_y >= 0.0`. -/
def keep_sample (x_0 y_0 v_0_x v_0_y basket_pos_x basket_pos_y : ℚ) (t : ℚ) :
    Option Sample :=
  let ball := ball_point x_0 y_0 v_0_x v_0_y t
  if 0 ≤ ball.2 then
    some (t, ball, enters_basket x_0 y_0 v_0_x v_0_y basket_pos_x basket_pos_y t)
  else none

/-- Stand-in for `f64::cos` on the runs below, which all pass the angle `0`:
`f64::cos(0.0) = 1.0` exactly. -/
def cos_stub : ℚ → ℚ := fun _ => 1

/-- Stand-in for `f64::sin` on the runs below, which all pass the angle `0`:
`f64::sin(0.0) = 0.0` exactly. -/
def sin_stub : ℚ → ℚ := fun _ => 0

theorem keep_sample_eq (x_0 y_0 v_0_x v_0_y b_x b_y t : ℚ) :
    keep_sample x_0 y_0 v_0_x v_0_y b_x b_y t
      = if 0 ≤ (ball_point x_0 y_0 v_0_x v_0_y t).2
        then some (t, ball_point x_0 y_0 v_0_x v_0_y t,
          enters_basket x_0 y_0 v_0_x v_0_y b_x b_y t)
        else none := rfl

/-- The times of the retained samples form a sublist of the time steps. -/
theorem times_sublist (x_0 y_0 v_0_x v_0_y b_x b_y : ℚ) (ts : List ℚ) :
    ((ts.filterMap (keep_sample x_0 y_0 v_0_x v_0_y b_x b_y)).map
      (fun s => s.1)).Sublist ts := by
  induction ts with
  | nil => simp
  | cons t ts ih =>
    rw [List.filterMap_cons, keep_sample_eq]
    by_cases h : 0 ≤ (ball_point x_0 y_0 v_0_x v_0_y t).2
    · rw [if_pos h, List.map_cons]
      exact ih.cons₂ t
    · rw [if_neg h]
      exact ih.cons t

/-- The loop of `basketball_2d` in closed form: the aggregate flag is the
disjunction of the per-instant tests over *all* time steps, and the
retained samples are the `keep_sample`-filtered time steps. -/
theorem basketball_foldl (x_0 y_0 v_0_x v_0_y b_x b_y : ℚ) (ts : List ℚ)
    (f0 : Bool) (l0 : List Sample) :
    ts.foldl (basketball_step x_0 y_0 v_0_x v_0_y b_x b_y) (f0, l0)
      = (f0 || ts.any (enters_basket x_0 y_0 v_0_x v_0_y b_x b_y),
         l0 ++ ts.filterMap (keep_sample x_0 y_0 v_0_x v_0_y b_x b_y)) := by
  induction ts generalizing f0 l0 with
  | nil => simp
  | cons t ts ih =>
    simp only [List.foldl_cons, List.any_cons, List.filterMap_cons]
    rw [basketball_step]
    by_cases h : 0 ≤ (ball_point x_0 y_0 v_0_x v_0_y t).2
    · rw [if_pos h, keep_sample, if_pos h, ih, Bool.or_assoc]
      simp
    · rw [if_neg h, keep_sample, if_neg h, ih, Bool.or_assoc]

/-- Restates `get_time_steps` without the `let`s. -/
theorem get_time_steps_eq (T : ℚ) (n : ℕ) :
    get_time_steps T n
      = [0] ++ (List.range' 1 (n - 1)).map (fun (k : ℕ) => (T / ((n - 1 : ℕ) : ℚ)) * (k : ℚ))
        ++ [T] := rfl

theorem get_time_steps_length (T : ℚ) (n : ℕ) (hn : 2 < n) :
    (get_time_steps T n).length = n + 1 := by
  rw [get_time_steps_eq]
  simp
  omega

theorem get_time_steps_head (T : ℚ) (n : ℕ) : (get_time_steps T n).head? = some 0 := rfl

theorem get_time_steps_last (T : ℚ) (n : ℕ) : (get_time_steps T n).getLast? = some T := by
  rw [get_time_steps_eq]
  exact List.getLast?_concat _

/-- The time sequence is non-decreasing, and strictly increasing before its
final entry.  (With exact arithmetic the penultimate entry
`delta_t * (n-1)` equals `T`, so the full sequence is not strict.) -/
theorem get_time_steps_mono (T : ℚ) (n : ℕ) (hT : 0 < T) (hn : 2 < n) :
    (get_time_steps T n).Pairwise (· ≤ ·)
    ∧ (get_time_steps T n).dropLast.Pairwise (· < ·) := by
  have hpos : (0 : ℚ) < ((n - 1 : ℕ) : ℚ) := by
    have h : 0 < n - 1 := by omega
    exact_mod_cast h
  have hd : 0 < T / ((n - 1 : ℕ) : ℚ) := div_pos hT hpos
  have hlast : T / ((n - 1 : ℕ) : ℚ) * ((n - 1 : ℕ) : ℚ) = T :=
    div_mul_cancel₀ T (ne_of_gt hpos)
  have hmapmem : ∀ y ∈ (List.range' 1 (n - 1)).map
      (fun (k : ℕ) => (T / ((n - 1 : ℕ) : ℚ)) * (k : ℚ)), 0 < y ∧ y ≤ T := by
    intro y hy
    rcases List.mem_map.1 hy with ⟨k, hk, rfl⟩
    rcases List.mem_range'_1.1 hk with ⟨hk1, hk2⟩
    refine ⟨mul_pos hd (by exact_mod_cast hk1), ?_⟩
    have hkle : (k : ℚ) ≤ ((n - 1 : ℕ) : ℚ) := by exact_mod_cast (by omega : k ≤ n - 1)
    calc (T / ((n - 1 : ℕ) : ℚ)) * (k : ℚ)
        ≤ T / ((n - 1 : ℕ) : ℚ) * ((n - 1 : ℕ) : ℚ) :=
          mul_le_mul_of_nonneg_left hkle (le_of_lt hd)
      _ = T := hlast
  have hmappw : ((List.range' 1 (n - 1)).map
      (fun (k : ℕ) => (T / ((n - 1 : ℕ) : ℚ)) * (k : ℚ))).Pairwise (· < ·) := by
    refine List.pairwise_map.2 ((List.pairwise_lt_range' 1 (n - 1)).imp ?_)
    intro a b hab
    exact mul_lt_mul_of_pos_left (by exact_mod_cast hab) hd
  constructor
  · rw [get_time_steps_eq]
    refine List.pairwise_append.2 ⟨?_, List.pairwise_singleton _ _, ?_⟩
    · refine List.pairwise_append.2
        ⟨List.pairwise_singleton _ _, hmappw.imp le_of_lt, ?_⟩
      intro x hx y hy
      rw [List.mem_singleton] at hx
      subst hx
      exact le_of_lt (hmapmem y hy).1
    · intro x hx y hy
      rw [List.mem_singleton] at hy
      subst hy
      rcases List.mem_append.1 hx with h | h
      · rw [List.mem_singleton] at h
        subst h
        exact le_of_lt hT
      · exact (hmapmem x h).2
  · rw [get_time_steps_eq, List.dropLast_concat]
    refine List.pairwise_append.2 ⟨List.pairwise_singleton _ _, hmappw, ?_⟩
    intro x hx y hy
    rw [List.mem_singleton] at hx
    subst hx
    exact (hmapmem y hy).1

/-- C1 (amended): For every duration `T > 0` and step count `N > 2`,
`get_time_steps(T, N)` has exactly `N + 1` elements (not `N`: the loop
already pushes `delta_t * (N-1)` before `T` is appended), its first
element is exactly `0`, its last element is exactly `T`, it is
non-decreasing, and it is strictly increasing up to its final entry
(with exact arithmetic the last two entries are both `T`). -/
theorem get_time_steps_spec (T : ℚ) (n : ℕ) (hT : 0 < T) (hn : 2 < n) :
    (get_time_steps T n).length = n + 1
    ∧ (get_time_steps T n).head? = some 0
    ∧ (get_time_steps T n).getLast? = some T
    ∧ (get_time_steps T n).Pairwise (· ≤ ·)
    ∧ (get_time_steps T n).dropLast.Pairwise (· < ·) :=
  ⟨get_time_steps_length T n hn, get_time_steps_head T n, get_time_steps_last T n,
   (get_time_steps_mono T n hT hn).1, (get_time_steps_mono T n hT hn).2⟩

/-- C1 counterexample: At `T = 3`, `N = 3` (valid inputs) the produced
sequence is `[0, 3/2, 3, 3]`: it has `4 ≠ N` elements and is not strictly
increasing, refuting the claim as stated. -/
theorem get_time_steps_spec_cex :
    (get_time_steps 3 3).length ≠ 3 ∧ ¬ (get_time_steps 3 3).Pairwise (· < ·) := by
  have h : get_time_steps 3 3 = [0, 3/2, 3, 3] := by
    norm_num [get_time_steps, List.range']
  rw [h]
  exact ⟨by norm_num, by norm_num⟩

/-- Witness for `get_time_steps_spec` at `T = 3`, `N = 4`. -/
theorem get_time_steps_spec_witness :
    ((0 : ℚ) < 3 ∧ 2 < 4)
    ∧ ((get_time_steps 3 4).length = 4 + 1
       ∧ (get_time_steps 3 4).head? = some 0
       ∧ (get_time_steps 3 4).getLast? = some 3
       ∧ (get_time_steps 3 4).Pairwise (· ≤ ·)
       ∧ (get_time_steps 3 4).dropLast.Pairwise (· < ·)) :=
  ⟨⟨by norm_num, by norm_num⟩, get_time_steps_spec 3 4 (by norm_num) (by norm_num)⟩

/-- Evaluates `basketball_2d` on valid inputs, in closed form. -/
theorem basketball_2d_eq (cosF sinF : ℚ → ℚ)
    (x_0 y_0 v_0 teta_0 b_x b_y sec : ℚ) (n : ℕ)
    (hv : 0 < v_0) (hs : 0 < sec) (hn : 2 < n) :
    basketball_2d cosF sinF x_0 y_0 v_0 teta_0 b_x b_y sec n
      = some ((get_time_steps sec n).any
            (enters_basket x_0 y_0 (v_0 * cosF teta_0) (v_0 * sinF teta_0) b_x b_y),
          (get_time_steps sec n).filterMap
            (keep_sample x_0 y_0 (v_0 * cosF teta_0) (v_0 * sinF teta_0) b_x b_y)) := by
  rw [basketball_2d, if_neg (by simpa using hv), if_neg (by simpa using hs),
    if_neg (by simpa using hn)]
  simp [basketball_foldl]

/-- If `basketball_2d` returns (rather than panicking), all three
`assert!`s passed. -/
theorem basketball_2d_some_inv (cosF sinF : ℚ → ℚ)
    (x_0 y_0 v_0 teta_0 b_x b_y sec : ℚ) (n : ℕ) (tr : Trajectory)
    (h : basketball_2d cosF sinF x_0 y_0 v_0 teta_0 b_x b_y sec n = some tr) :
    0 < v_0 ∧ 0 < sec ∧ 2 < n := by
  rw [basketball_2d] at h
  split_ifs at h with h1 h2 h3
  all_goals first
  | exact Option.noConfusion h
  | (push_neg at h1 h2 h3
     exact ⟨h1, h2, h3⟩)

/-- C5 (amended): Every retained sample of a `basketball_2d` trajectory
has `y ≥ 0`, and the retained samples appear in *non-decreasing* time
order.  (Strict increase can fail: the duplicated final instant — see
`get_time_steps_spec` — can yield two retained samples with equal time,
as `basketball_2d_order_cex` shows.) -/
theorem basketball_2d_samples_spec (cosF sinF : ℚ → ℚ)
    (x_0 y_0 v_0 teta_0 b_x b_y sec : ℚ) (n : ℕ) (tr : Trajectory)
    (h : basketball_2d cosF sinF x_0 y_0 v_0 teta_0 b_x b_y sec n = some tr) :
    (∀ s ∈ tr.2, 0 ≤ s.2.1.2)
    ∧ (tr.2.map (fun s => s.1)).Pairwise (· ≤ ·) := by
  obtain ⟨hv, hs, hn⟩ := basketball_2d_some_inv cosF sinF x_0 y_0 v_0 teta_0 b_x b_y sec n tr h
  rw [basketball_2d_eq cosF sinF x_0 y_0 v_0 teta_0 b_x b_y sec n hv hs hn] at h
  obtain rfl := (Option.some.inj h).symm
  constructor
  · intro s hsmem
    rcases List.mem_filterMap.1 hsmem with ⟨t, _, hk⟩
    rw [keep_sample_eq] at hk
    by_cases h0 : 0 ≤ (ball_point x_0 y_0 (v_0 * cosF teta_0) (v_0 * sinF teta_0) t).2
    · rw [if_pos h0] at hk
      obtain rfl := (Option.some.inj hk).symm
      exact h0
    · rw [if_neg h0] at hk
      exact Option.noConfusion hk
  · exact ((get_time_steps_mono sec n hs hn).1).sublist
      (times_sublist x_0 y_0 (v_0 * cosF teta_0) (v_0 * sinF teta_0) b_x b_y _)

/-- C5 counterexample: A valid run (angle `0`, start `(0, 10)`, speed
`1`, duration `1`, `N = 3`, basket far away) keeps all four evaluated
samples; their times are `[0, 1/2, 1, 1]`, which is *not* strictly
increasing (the final instant is duplicated, exactly as in the reference
`f64` run where `delta_t = 0.5` and `2 * delta_t == 1.0` hold exactly). -/
theorem basketball_2d_order_cex :
    basketball_2d cos_stub sin_stub 0 10 1 0 100 100 1 3
      = some (false, [(0, (0, 10), false), (1/2, (1/2, 70193/8000), false),
          (1, (1, 10193/2000), false), (1, (1, 10193/2000), false)])
    ∧ ¬ (([(0 : ℚ), 1/2, 1, 1]).Pairwise (· < ·)) := by
  constructor
  · rw [basketball_2d_eq cos_stub sin_stub 0 10 1 0 100 100 1 3 (by norm_num) (by norm_num)
      (by norm_num)]
    norm_num [get_time_steps, List.range', List.filterMap_cons, keep_sample, enters_basket,
      ball_point, euclidean_distance_sq, GRAVITY, MIN_BALL_DELTA_TO_BASKET_CENTER,
      cos_stub, sin_stub]
  · norm_num

/-- Witness for `basketball_2d_samples_spec` on the run of
`basketball_2d_order_cex` shifted to start at height 5. -/
theorem basketball_2d_samples_spec_witness :
    basketball_2d cos_stub sin_stub 0 5 1 0 100 100 1 3
      = some (false, [(0, (0, 5), false), (1/2, (1/2, 30193/8000), false),
          (1, (1, 193/2000), false), (1, (1, 193/2000), false)])
    ∧ ((∀ s ∈ [((0 : ℚ), ((0 : ℚ), (5 : ℚ)), false), (1/2, (1/2, 30193/8000), false),
          (1, (1, 193/2000), false), (1, (1, 193/2000), false)], 0 ≤ s.2.1.2)
       ∧ (([((0 : ℚ), ((0 : ℚ), (5 : ℚ)), false), (1/2, (1/2, 30193/8000), false),
          (1, (1, 193/2000), false), (1, (1, 193/2000), false)].map
            (fun s => s.1)).Pairwise (· ≤ ·))) := by
  have h : basketball_2d cos_stub sin_stub 0 5 1 0 100 100 1 3
      = some (false, [(0, (0, 5), false), (1/2, (1/2, 30193/8000), false),
          (1, (1, 193/2000), false), (1, (1, 193/2000), false)]) := by
    rw [basketball_2d_eq cos_stub sin_stub 0 5 1 0 100 100 1 3 (by norm_num) (by norm_num)
      (by norm_num)]
    norm_num [get_time_steps, List.range', List.filterMap_cons, keep_sample, enters_basket,
      ball_point, euclidean_distance_sq, GRAVITY, MIN_BALL_DELTA_TO_BASKET_CENTER,
      cos_stub, sin_stub]
  exact ⟨h, basketball_2d_samples_spec cos_stub sin_stub 0 5 1 0 100 100 1 3 _ h⟩

/-- C2 (amended): The aggregate "ever entered" flag of a
`basketball_2d` trajectory is the disjunction of the per-instant basket
tests over *all* evaluated time steps — including instants whose sample
is dropped for having `y < 0`.  It therefore equals `true` iff some
evaluated instant is within the capture radius of the basket; it is *not*
in general the OR of the retained samples' flags
(`basketball_2d_flag_cex`). -/
theorem basketball_2d_flag_spec (cosF sinF : ℚ → ℚ)
    (x_0 y_0 v_0 teta_0 b_x b_y sec : ℚ) (n : ℕ) (tr : Trajectory)
    (h : basketball_2d cosF sinF x_0 y_0 v_0 teta_0 b_x b_y sec n = some tr) :
    tr.1 = (get_time_steps sec n).any
        (enters_basket x_0 y_0 (v_0 * cosF teta_0) (v_0 * sinF teta_0) b_x b_y)
    ∧ (tr.1 = true ↔ ∃ t ∈ get_time_steps sec n,
        euclidean_distance_sq
            (ball_point x_0 y_0 (v_0 * cosF teta_0) (v_0 * sinF teta_0) t).1
            (ball_point x_0 y_0 (v_0 * cosF teta_0) (v_0 * sinF teta_0) t).2 0 b_x b_y 0
          ≤ MIN_BALL_DELTA_TO_BASKET_CENTER ^ 2) := by
  obtain ⟨hv, hs, hn⟩ :=
    basketball_2d_some_inv cosF sinF x_0 y_0 v_0 teta_0 b_x b_y sec n tr h
  rw [basketball_2d_eq cosF sinF x_0 y_0 v_0 teta_0 b_x b_y sec n hv hs hn] at h
  obtain rfl := (Option.some.inj h).symm
  refine ⟨rfl, ?_⟩
  simp only [List.any_eq_true, enters_basket, decide_eq_true_eq]

/-- C2 counterexample: Launching from `(0, -1)` at angle `0` towards a
basket at `(0, -1)`: at `t = 0` the ball is exactly at the basket, so the
aggregate flag is set — but that sample has `y = -1 < 0` and is dropped,
so the retained vector is empty and the OR of the retained samples'
flags is `false`.  The claimed equivalence fails. -/
theorem basketball_2d_flag_cex :
    basketball_2d cos_stub sin_stub 0 (-1) 1 0 0 (-1) 1 3 = some (true, [])
    ∧ ¬ (((true : Bool) = true) ↔ (([] : List Sample).any (fun s => s.2.2) = true)) := by
  constructor
  · rw [basketball_2d_eq cos_stub sin_stub 0 (-1) 1 0 0 (-1) 1 3 (by norm_num) (by norm_num)
      (by norm_num)]
    norm_num [get_time_steps, List.range', List.filterMap_cons, keep_sample, enters_basket,
      ball_point, euclidean_distance_sq, GRAVITY, MIN_BALL_DELTA_TO_BASKET_CENTER,
      cos_stub, sin_stub]
  · simp

/-- Witness for `basketball_2d_flag_spec`: a run whose only retained sample
is the launch point and whose flag is `false`. -/
theorem basketball_2d_flag_spec_witness :
    basketball_2d cos_stub sin_stub 0 0 1 0 100 100 1 3
      = some (false, [(0, (0, 0), false)])
    ∧ (((false : Bool), [((0 : ℚ), ((0 : ℚ), (0 : ℚ)), false)]).1
        = (get_time_steps 1 3).any
            (enters_basket 0 0 (1 * cos_stub 0) (1 * sin_stub 0) 100 100)
       ∧ (((false : Bool), [((0 : ℚ), ((0 : ℚ), (0 : ℚ)), false)]).1 = true
          ↔ ∃ t ∈ get_time_steps 1 3,
              euclidean_distance_sq
                  (ball_point 0 0 (1 * cos_stub 0) (1 * sin_stub 0) t).1
                  (ball_point 0 0 (1 * cos_stub 0) (1 * sin_stub 0) t).2 0 100 100 0
                ≤ MIN_BALL_DELTA_TO_BASKET_CENTER ^ 2)) := by
  have h : basketball_2d cos_stub sin_stub 0 0 1 0 100 100 1 3
      = some (false, [(0, (0, 0), false)]) := by
    rw [basketball_2d_eq cos_stub sin_stub 0 0 1 0 100 100 1 3 (by norm_num) (by norm_num)
      (by norm_num)]
    norm_num [get_time_steps, List.range', List.filterMap_cons, keep_sample, enters_basket,
      ball_point, euclidean_distance_sq, GRAVITY, MIN_BALL_DELTA_TO_BASKET_CENTER,
      cos_stub, sin_stub]
  exact ⟨h, basketball_2d_flag_spec cos_stub sin_stub 0 0 1 0 100 100 1 3 _ h⟩

/-- C3 (confirmed): Every retained sample of a `basketball_2d`
trajectory satisfies the closed-form kinematics
`x = x0 + v0·cos(teta0)·t` and `y = y0 + v0·sin(teta0)·t − ½·9.807·t²`,
with the angle `teta0` passed to the trig functions exactly as given
(no degree-to-radian conversion appears anywhere); and for the
end-to-end scenario (`pos0 = (0, 1.5)`, `v0 = 10`, `teta0 = 45`,
`basket = (8, 3.05)`, `T = 3`, `N = 60`) — for *any* interpretation of
the trig functions — the first sample is `t = 0` at position `(0, 1.5)`. -/
theorem basketball_2d_kinematics (cosF sinF : ℚ → ℚ)
    (x_0 y_0 v_0 teta_0 b_x b_y sec : ℚ) (n : ℕ) (tr : Trajectory)
    (h : basketball_2d cosF sinF x_0 y_0 v_0 teta_0 b_x b_y sec n = some tr) :
    (∀ s ∈ tr.2,
        s.2.1.1 = x_0 + v_0 * cosF teta_0 * s.1
        ∧ s.2.1.2 = y_0 + v_0 * sinF teta_0 * s.1 - (1 / 2) * GRAVITY * s.1 ^ 2)
    ∧ (∃ tr60, basketball_2d cosF sinF 0 (3/2) 10 45 8 (61/20) 3 60 = some tr60
        ∧ tr60.2.head? = some (0, (0, 3/2), false)) := by
  obtain ⟨hv, hs, hn⟩ :=
    basketball_2d_some_inv cosF sinF x_0 y_0 v_0 teta_0 b_x b_y sec n tr h
  rw [basketball_2d_eq cosF sinF x_0 y_0 v_0 teta_0 b_x b_y sec n hv hs hn] at h
  obtain rfl := (Option.some.inj h).symm
  constructor
  · intro s hsmem
    rcases List.mem_filterMap.1 hsmem with ⟨t, _, hk⟩
    rw [keep_sample_eq] at hk
    by_cases h0 : 0 ≤ (ball_point x_0 y_0 (v_0 * cosF teta_0) (v_0 * sinF teta_0) t).2
    · rw [if_pos h0] at hk
      obtain rfl := (Option.some.inj hk).symm
      constructor
      · show (ball_point _ _ _ _ t).1 = _
        rw [ball_point]
      · show (ball_point _ _ _ _ t).2 = _
        rw [ball_point]
        ring
    · rw [if_neg h0] at hk
      exact Option.noConfusion hk
  · have h60 := basketball_2d_eq cosF sinF 0 (3/2) 10 45 8 (61/20) 3 60
      (by norm_num) (by norm_num) (by norm_num)
    refine ⟨_, h60, ?_⟩
    have hb : ball_point 0 (3/2) (10 * cosF 45) (10 * sinF 45) 0 = (0, 3/2) := by
      rw [ball_point]
      norm_num
    have he : enters_basket 0 (3/2) (10 * cosF 45) (10 * sinF 45) 8 (61/20) 0 = false := by
      simp only [enters_basket, hb, euclidean_distance_sq, MIN_BALL_DELTA_TO_BASKET_CENTER,
        decide_eq_false_iff_not]
      norm_num
    have hk0 : keep_sample 0 (3/2) (10 * cosF 45) (10 * sinF 45) 8 (61/20) 0
        = some (0, (0, 3/2), false) := by
      rw [keep_sample_eq, hb, he]
      norm_num
    have hsteps : get_time_steps 3 60
        = 0 :: ((List.range' 1 59).map
            (fun (k : ℕ) => ((3 : ℚ) / ((59 : ℕ) : ℚ)) * (k : ℚ)) ++ [3]) := rfl
    rw [hsteps, List.filterMap_cons, hk0]
    simp

/-- Witness for `basketball_2d_kinematics` at a concrete small run. -/
theorem basketball_2d_kinematics_witness :
    basketball_2d cos_stub sin_stub 1 5 1 0 100 100 1 3
      = some (false, [(0, (1, 5), false), (1/2, (3/2, 30193/8000), false),
          (1, (2, 193/2000), false), (1, (2, 193/2000), false)])
    ∧ ((∀ s ∈ [((0 : ℚ), ((1 : ℚ), (5 : ℚ)), false), (1/2, (3/2, 30193/8000), false),
          (1, (2, 193/2000), false), (1, (2, 193/2000), false)],
          s.2.1.1 = 1 + 1 * cos_stub 0 * s.1
          ∧ s.2.1.2 = 5 + 1 * sin_stub 0 * s.1 - (1 / 2) * GRAVITY * s.1 ^ 2)
       ∧ (∃ tr60, basketball_2d cos_stub sin_stub 0 (3/2) 10 45 8 (61/20) 3 60 = some tr60
          ∧ tr60.2.head? = some (0, (0, 3/2), false))) := by
  have h : basketball_2d cos_stub sin_stub 1 5 1 0 100 100 1 3
      = some (false, [(0, (1, 5), false), (1/2, (3/2, 30193/8000), false),
          (1, (2, 193/2000), false), (1, (2, 193/2000), false)]) := by
    rw [basketball_2d_eq cos_stub sin_stub 1 5 1 0 100 100 1 3 (by norm_num) (by norm_num)
      (by norm_num)]
    norm_num [get_time_steps, List.range', List.filterMap_cons, keep_sample, enters_basket,
      ball_point, euclidean_distance_sq, GRAVITY, MIN_BALL_DELTA_TO_BASKET_CENTER,
      cos_stub, sin_stub]
  exact ⟨h, basketball_2d_kinematics cos_stub sin_stub 1 5 1 0 100 100 1 3 _ h⟩

/-- C4 (confirmed): `basketball_2d` fails fast exactly when a
precondition is violated: it panics iff `v0 ≤ 0` or the duration `≤ 0`
or the step count `≤ 2`; in particular `N = 2` is always rejected, and
`N = 3` runs whenever speed and duration are positive. -/
theorem basketball_2d_preconditions (cosF sinF : ℚ → ℚ)
    (x_0 y_0 v_0 teta_0 b_x b_y sec : ℚ) (n : ℕ) :
    (basketball_2d cosF sinF x_0 y_0 v_0 teta_0 b_x b_y sec n = none
      ↔ (v_0 ≤ 0 ∨ sec ≤ 0 ∨ n ≤ 2))
    ∧ basketball_2d cosF sinF x_0 y_0 v_0 teta_0 b_x b_y sec 2 = none
    ∧ ((basketball_2d cosF sinF x_0 y_0 v_0 teta_0 b_x b_y sec 3).isSome = true
      ↔ (0 < v_0 ∧ 0 < sec)) := by
  refine ⟨?_, ?_, ?_⟩
  · rw [basketball_2d]
    split_ifs with h1 h2 h3
    · simp [not_le.mpr h1, not_le.mpr h2, not_le.mpr h3]
    · simp [not_lt.1 h3]
    · simp [not_lt.1 h2]
    · simp [not_lt.1 h1]
  · rw [basketball_2d]
    simp
  · rw [basketball_2d]
    split_ifs with h1 h2 h3
    · simp [h1, h2]
    · exact absurd (by norm_num : (2 : ℕ) < 3) h3
    · simp [h2]
    · simp [h1]

/-- Models `f64::round` (half away from zero) on the exact-rational model. -/
def rust_round (q : ℚ) : ℤ := if 0 ≤ q then ⌊q + 1 / 2⌋ else ⌈q - 1 / 2⌉

/-- The `as usize` cast applied to a rounded `f64`: saturates at `0` for
negative values. -/
def as_usize (z : ℤ) : ℕ := z.toNat

theorem rust_round_natCast (k : ℕ) : rust_round (k : ℚ) = k := by
  rw [rust_round, if_pos (by positivity)]
  have h : ((k : ℚ) + 1 / 2) = ((k : ℤ) : ℚ) + 1 / 2 := by push_cast; ring
  rw [h, Int.floor_int_add]
  norm_num

/-- The `(row, col)` cell computed by `set_pixel_meters`
(src/main.rs:258-261):
`row = round(row_meters_p * (num_rows-1) / rows_meters) as usize`, and
likewise for `col`. -/
def pixel_cell (num_rows num_cols : ℕ) (rows_meters cols_meters : ℚ)
    (row_meters_p col_meters_p : ℚ) : ℕ × ℕ :=
  (as_usize (rust_round (row_meters_p * ((num_rows - 1 : ℕ) : ℚ) / rows_meters)),
   as_usize (rust_round (col_meters_p * ((num_cols - 1 : ℕ) : ℚ) / cols_meters)))

/-- Embeds `struct DisplayCMD` (src/main.rs:229-235). -/
structure DisplayCMD where
  buf : List Char
  num_rows : ℕ
  num_cols : ℕ
  rows_meters : ℚ
  cols_meters : ℚ

/-- Embeds `DisplayCMD::new` (src/main.rs:238-246). -/
def DisplayCMD.new (num_rows num_cols : ℕ) (rows_meters cols_meters : ℚ) : DisplayCMD :=
  { buf := List.replicate (num_rows * num_cols) ' ',
    num_rows := num_rows, num_cols := num_cols,
    rows_meters := rows_meters, cols_meters := cols_meters }

/-- Embeds `DisplayCMD::set_pixel` (src/main.rs:248-253); the two `assert!`s are
the conjunction guard. -/
def DisplayCMD.set_pixel (d : DisplayCMD) (ch : Char) (row col : ℕ) : Option DisplayCMD :=
  if row < d.num_rows ∧ col < d.num_cols then
    some { d with buf := d.buf.set (row * d.num_cols + col) ch }
  else none

/-- Embeds `DisplayCMD::set_pixel_meters` (src/main.rs:255-273).  The `none`
branches model, in order: the two `assert!`s, the `usize` underflow of
`col - 2` when `col < 2` (a debug-build panic), and the asserts inside
the five `set_pixel` calls of the entered-marker branch. -/
def DisplayCMD.set_pixel_meters (d : DisplayCMD) (ch : Char)
    (row_meters_p col_meters_p : ℚ) (flag_enter_instant : Bool) : Option DisplayCMD :=
  if ¬ row_meters_p ≤ d.rows_meters then none
  else if ¬ col_meters_p ≤ d.cols_meters then none
  else
    let rc := pixel_cell d.num_rows d.num_cols d.rows_meters d.cols_meters
      row_meters_p col_meters_p
    let row := rc.1
    let col := rc.2
    if flag_enter_instant then
      if col < 2 then none
      else do
        let d1 ← d.set_pixel '=' row (col - 2)
        let d2 ← d1.set_pixel '=' row (col - 1)
        let d3 ← d2.set_pixel '=' row (col + 1)
        let d4 ← d3.set_pixel '=' row (col + 2)
        d4.set_pixel '*' row col
    else d.set_pixel ch row col

/-- C6 (confirmed): `set_pixel_meters` computes
`row = round(y_m * (num_rows-1) / rows_meters)` and
`col = round(x_m * (num_cols-1) / cols_meters)`; it panics whenever
`x_m > cols_meters` or `y_m > rows_meters`; and the physical coordinate
exactly at `(cols_meters, rows_meters)` maps to cell
`(num_rows-1, num_cols-1)`. -/
theorem set_pixel_meters_spec (d : DisplayCMD)
    (hrm : 0 < d.rows_meters) (hcm : 0 < d.cols_meters) :
    (∀ (ch : Char) (y_m x_m : ℚ) (flag : Bool),
        (x_m > d.cols_meters ∨ y_m > d.rows_meters) →
        d.set_pixel_meters ch y_m x_m flag = none)
    ∧ pixel_cell d.num_rows d.num_cols d.rows_meters d.cols_meters
        d.rows_meters d.cols_meters = (d.num_rows - 1, d.num_cols - 1)
    ∧ (∀ y_m x_m : ℚ,
        pixel_cell d.num_rows d.num_cols d.rows_meters d.cols_meters y_m x_m
          = (as_usize (rust_round (y_m * ((d.num_rows - 1 : ℕ) : ℚ) / d.rows_meters)),
             as_usize (rust_round (x_m * ((d.num_cols - 1 : ℕ) : ℚ) / d.cols_meters)))) := by
  refine ⟨?_, ?_, fun y_m x_m => rfl⟩
  · intro ch y_m x_m flag h
    rw [DisplayCMD.set_pixel_meters]
    rcases h with h | h
    · by_cases hy : y_m ≤ d.rows_meters
      · rw [if_neg (not_not_intro hy), if_pos (not_le.mpr h)]
      · rw [if_pos hy]
    · rw [if_pos (not_le.mpr h)]
  · rw [pixel_cell, mul_div_cancel_left₀ _ (ne_of_gt hrm),
      mul_div_cancel_left₀ _ (ne_of_gt hcm), rust_round_natCast, rust_round_natCast]
    simp [as_usize]

/-- Witness for `set_pixel_meters_spec` on the program's 50×80 grid over
10 m × 10 m. -/
theorem set_pixel_meters_spec_witness :
    ((0 : ℚ) < (DisplayCMD.new 50 80 10 10).rows_meters
     ∧ (0 : ℚ) < (DisplayCMD.new 50 80 10 10).cols_meters)
    ∧ ((∀ (ch : Char) (y_m x_m : ℚ) (flag : Bool),
          (x_m > (DisplayCMD.new 50 80 10 10).cols_meters
           ∨ y_m > (DisplayCMD.new 50 80 10 10).rows_meters) →
          (DisplayCMD.new 50 80 10 10).set_pixel_meters ch y_m x_m flag = none)
       ∧ pixel_cell (DisplayCMD.new 50 80 10 10).num_rows
           (DisplayCMD.new 50 80 10 10).num_cols
           (DisplayCMD.new 50 80 10 10).rows_meters
           (DisplayCMD.new 50 80 10 10).cols_meters
           (DisplayCMD.new 50 80 10 10).rows_meters
           (DisplayCMD.new 50 80 10 10).cols_meters
           = ((DisplayCMD.new 50 80 10 10).num_rows - 1,
              (DisplayCMD.new 50 80 10 10).num_cols - 1)
       ∧ (∀ y_m x_m : ℚ,
            pixel_cell (DisplayCMD.new 50 80 10 10).num_rows
              (DisplayCMD.new 50 80 10 10).num_cols
              (DisplayCMD.new 50 80 10 10).rows_meters
              (DisplayCMD.new 50 80 10 10).cols_meters y_m x_m
              = (as_usize (rust_round (y_m
                    * (((DisplayCMD.new 50 80 10 10).num_rows - 1 : ℕ) : ℚ)
                    / (DisplayCMD.new 50 80 10 10).rows_meters)),
                 as_usize (rust_round (x_m
                    * (((DisplayCMD.new 50 80 10 10).num_cols - 1 : ℕ) : ℚ)
                    / (DisplayCMD.new 50 80 10 10).cols_meters))))) :=
  ⟨⟨by norm_num [DisplayCMD.new], by norm_num [DisplayCMD.new]⟩,
   set_pixel_meters_spec (DisplayCMD.new 50 80 10 10)
     (by norm_num [DisplayCMD.new]) (by norm_num [DisplayCMD.new])⟩

/-- C10 (confirmed): For an entered sample (marker branch), writing
succeeds exactly when the computed column is at least two cells from
both horizontal edges (`2 ≤ col` and `col + 2 < num_cols`, i.e.
`col ≤ num_cols - 3`) and the row is in range: `col < 2` hits the
`usize` underflow of `col - 2`, and `col + 2 ≥ num_cols` fails the
assertion inside `set_pixel`. -/
theorem set_pixel_meters_entered_spec (d : DisplayCMD) (ch : Char) (y_m x_m : ℚ)
    (hy : y_m ≤ d.rows_meters) (hx : x_m ≤ d.cols_meters) :
    (d.set_pixel_meters ch y_m x_m true).isSome = true
      ↔ (2 ≤ (pixel_cell d.num_rows d.num_cols d.rows_meters d.cols_meters y_m x_m).2
         ∧ (pixel_cell d.num_rows d.num_cols d.rows_meters d.cols_meters y_m x_m).2 + 2
             < d.num_cols
         ∧ (pixel_cell d.num_rows d.num_cols d.rows_meters d.cols_meters y_m x_m).1
             < d.num_rows) := by
  rw [DisplayCMD.set_pixel_meters, if_neg (not_not_intro hy), if_neg (not_not_intro hx)]
  by_cases h2 : (pixel_cell d.num_rows d.num_cols d.rows_meters d.cols_meters y_m x_m).2 < 2
  · simp only [if_pos h2]
    simp only [eq_self_iff_true, if_true]
    constructor
    · intro h
      exact absurd h (by simp)
    · intro h
      omega
  · simp only [if_neg h2]
    simp only [eq_self_iff_true, if_true]
    simp only [DisplayCMD.set_pixel]
    repeat' (first | omega | (split_ifs <;> try simp_all))

/-- Witness for `set_pixel_meters_entered_spec`: a 3×7 grid over
10 m × 10 m, entered sample at `(x, y) = (5, 0)` projecting to
`(row, col) = (0, 3)`. -/
theorem set_pixel_meters_entered_spec_witness :
    ((0 : ℚ) ≤ (DisplayCMD.new 3 7 10 10).rows_meters
     ∧ (5 : ℚ) ≤ (DisplayCMD.new 3 7 10 10).cols_meters)
    ∧ (((DisplayCMD.new 3 7 10 10).set_pixel_meters 'O' 0 5 true).isSome = true
       ↔ (2 ≤ (pixel_cell (DisplayCMD.new 3 7 10 10).num_rows
             (DisplayCMD.new 3 7 10 10).num_cols
             (DisplayCMD.new 3 7 10 10).rows_meters
             (DisplayCMD.new 3 7 10 10).cols_meters 0 5).2
          ∧ (pixel_cell (DisplayCMD.new 3 7 10 10).num_rows
             (DisplayCMD.new 3 7 10 10).num_cols
             (DisplayCMD.new 3 7 10 10).rows_meters
             (DisplayCMD.new 3 7 10 10).cols_meters 0 5).2 + 2
              < (DisplayCMD.new 3 7 10 10).num_cols
          ∧ (pixel_cell (DisplayCMD.new 3 7 10 10).num_rows
             (DisplayCMD.new 3 7 10 10).num_cols
             (DisplayCMD.new 3 7 10 10).rows_meters
             (DisplayCMD.new 3 7 10 10).cols_meters 0 5).1
              < (DisplayCMD.new 3 7 10 10).num_rows)) :=
  ⟨⟨by norm_num [DisplayCMD.new], by norm_num [DisplayCMD.new]⟩,
   set_pixel_meters_entered_spec (DisplayCMD.new 3 7 10 10) 'O' 0 5
     (by norm_num [DisplayCMD.new]) (by norm_num [DisplayCMD.new])⟩

/-- Models `f64::MIN`, the initial accumulator of the max-scan in
`plot_trajectory_svg` (src/main.rs:307-308): `-(2 - 2⁻⁵²)·2¹⁰²³`. -/
def f64_MIN : ℚ := -(2 ^ 1024 - 2 ^ 971)

/-- Embeds `enum Color` (src/svg_gen.rs:6-14). -/
inductive Color where
  | Black
  | White
  | Blue
  | Green
  | Red
  | Yellow
  | Rgb (r g b : ℕ)

/-- Embeds `Color::to_string` (src/svg_gen.rs:17-27). -/
def Color.to_string : Color → String
  | Color.Black => "black"
  | Color.White => "white"
  | Color.Blue => "blue"
  | Color.Green => "green"
  | Color.Red => "red"
  | Color.Yellow => "yellow"
  | Color.Rgb r g b => "rgb(" ++ toString r ++ "," ++ toString g ++ "," ++ toString b ++ ")"

/-- Embeds `struct SVG` (src/svg_gen.rs:30-35); `f32` dimensions modelled as `ℚ`. -/
structure SVG where
  width : ℚ
  height : ℚ
  background_color : Option Color
  elem_str_vec : List String

/-- Embeds `SVG::new` (src/svg_gen.rs:38-45). -/
def SVG.new (width height : ℚ) (background_color : Option Color) : SVG :=
  { width := width, height := height, background_color := background_color,
    elem_str_vec := [] }

/-- Embeds `SVG::add_elem` (src/svg_gen.rs:47-49). -/
def SVG.add_elem (svg : SVG) (elem_str : String) : SVG :=
  { svg with elem_str_vec := svg.elem_str_vec ++ [elem_str] }

/-- Rust's `String::ends_with('\n')`, modelled on the character list. -/
def rust_ends_with_newline (s : String) : Bool :=
  decide (s.data.getLast? = some '\n')

/-- The background rectangle written by `to_string_append`
(src/svg_gen.rs:53-55). -/
def background_rect (color : Color) : String :=
  "<rect width=\"100%\" height=\"100%\" fill=\"" ++ color.to_string ++ "\" />\n"

/-- Embeds `SVG::to_string_append` (src/svg_gen.rs:52-88): background rectangle (if
any), then every element, each followed by a newline unless it already
ends in one. -/
def SVG.to_string_append (svg : SVG) (str_buf : String) : String :=
  let str_buf :=
    match svg.background_color with
    | some color => str_buf ++ background_rect color
    | none => str_buf
  svg.elem_str_vec.foldl
    (fun buf elem_str =>
      if rust_ends_with_newline elem_str then buf ++ elem_str else buf ++ elem_str ++ "\n")
    str_buf

/-- The `<svg …>` header written by `SVG::to_file_string`
(src/svg_gen.rs:123-130); `fmt` models the `{:.2}` float formatting. -/
def svg_header (fmt : ℚ → String) (width height : ℚ) : String :=
  "<svg version=\"1.1\"\nbaseProfile=\"full\"\nwidth=\"" ++ fmt width
    ++ "\" height=\"" ++ fmt height
    ++ "\"\nxmlns=\"http://www.w3.org/2000/svg\"\nxmlns:xlink=\"http://www.w3.org/1999/xlink\">\n"

/-- Embeds `SVG::to_file_string` (src/svg_gen.rs:118-139): header, body elements,
`</svg>` footer. -/
def SVG.to_file_string (svg : SVG) (fmt : ℚ → String) : String :=
  svg.to_string_append (svg_header fmt svg.width svg.height) ++ "</svg>\n"

/-- The running maxima of `plot_trajectory_svg` (src/main.rs:307-317),
starting from `f64::MIN`. -/
def traj_x_max (samples : List Sample) : ℚ :=
  samples.foldl (fun x_max s => if s.2.1.1 > x_max then s.2.1.1 else x_max) f64_MIN

def traj_y_max (samples : List Sample) : ℚ :=
  samples.foldl (fun y_max s => if s.2.1.2 > y_max then s.2.1.2 else y_max) f64_MIN

/-- Models `max_x_y` and `scale_factor` of `plot_trajectory_svg`
(src/main.rs:318-319): `svg_x_max / f64::max(x_max, y_max)`. -/
def svg_scale_factor (samples : List Sample) (svg_x_max : ℚ) : ℚ :=
  svg_x_max / max (traj_x_max samples) (traj_y_max samples)

/-- The point projection used throughout `plot_trajectory_svg`
(src/main.rs:339-340, 357-358, 379-380):
`(x * scale_factor, svg_y_max - y * scale_factor)`. -/
def svg_point (scale_factor svg_y_max x y : ℚ) : ℚ × ℚ :=
  (x * scale_factor, svg_y_max - y * scale_factor)

/-- One trace circle (src/main.rs:334-344): green when the sample entered
the basket, blue otherwise. -/
def circle_marker (fmt : ℚ → String) (scale_factor svg_y_max : ℚ) (s : Sample) : String :=
  "<circle cx=\"" ++ fmt (svg_point scale_factor svg_y_max s.2.1.1 s.2.1.2).1
    ++ "\" cy=\"" ++ fmt (svg_point scale_factor svg_y_max s.2.1.1 s.2.1.2).2
    ++ "\" r=\"" ++ fmt 2
    ++ "\" fill=\"" ++ (if s.2.2 then "green" else "blue") ++ "\" />\n"

/-- The basket rectangle (src/main.rs:346-354). -/
def basket_rect (fmt : ℚ → String) (scale_factor svg_y_max basket_pos_x basket_pos_y : ℚ) :
    String :=
  "<rect x=\"" ++ fmt (basket_pos_x * scale_factor - 10)
    ++ "\" y=\"" ++ fmt (svg_y_max - basket_pos_y * scale_factor - 2)
    ++ "\" width=\"" ++ fmt 20 ++ "\" height=\"" ++ fmt 4
    ++ "\" style=\"fill:green;stroke:green;stroke-width:" ++ fmt 1 ++ "\" />\n"

/-- The motion path (src/main.rs:356-383): `M` at the first sample, then an
`L` entry for every sample, in order. -/
def motion_path (fmt : ℚ → String) (scale_factor svg_y_max : ℚ) (s0 : Sample)
    (samples : List Sample) : String :=
  "<path id=\"motionPath\" fill=\"none\" d=\"M"
    ++ fmt (svg_point scale_factor svg_y_max s0.2.1.1 s0.2.1.2).1 ++ ","
    ++ fmt (svg_point scale_factor svg_y_max s0.2.1.1 s0.2.1.2).2 ++ "\n"
    ++ String.join (samples.map (fun s =>
        "L" ++ fmt (svg_point scale_factor svg_y_max s.2.1.1 s.2.1.2).1 ++ ","
          ++ fmt (svg_point scale_factor svg_y_max s.2.1.1 s.2.1.2).2 ++ "\n"))
    ++ "\" />\n"

/-- The animated token circle (src/main.rs:385-390). -/
def token_circle (fmt : ℚ → String) : String :=
  "<circle id=\"circle\" cx=\"" ++ fmt 0 ++ "\" cy=\"" ++ fmt 0
    ++ "\" r=\"3\" fill=\"yellow\" />\n"

/-- The `animateMotion` element (src/main.rs:402-411), a fixed literal. -/
def animate_motion_elem : String :=
  "<animateMotion\n                xlink:href=\"#circle\"\n                dur=\"3s\"\n                begin=\"0s\"\n                fill=\"freeze\"\n                repeatCount=\"indefinite\">\n                <mpath xlink:href=\"#motionPath\" />\n            </animateMotion>"

/-- Embeds `plot_trajectory_svg` (src/main.rs:291-416).  The `none` branches model
the two `debug_assert!`s (src/main.rs:295-296) and the out-of-bounds
indexing `trajectory_2d.1[0]` (src/main.rs:357) on an empty sample
vector. -/
def plot_trajectory_svg (fmt : ℚ → String) (trajectory_2d : Trajectory)
    (basket_pos_x basket_pos_y svg_x_max svg_y_max : ℚ) : Option SVG :=
  if ¬ 0 < svg_x_max then none
  else if ¬ 0 < svg_y_max then none
  else
    match trajectory_2d.2 with
    | [] => none
    | s0 :: rest =>
      let samples := s0 :: rest
      let scale_factor := svg_scale_factor samples svg_x_max
      let elem_str :=
        String.join (samples.map (circle_marker fmt scale_factor svg_y_max))
          ++ basket_rect fmt scale_factor svg_y_max basket_pos_x basket_pos_y
          ++ motion_path fmt scale_factor svg_y_max s0 samples
          ++ token_circle fmt
          ++ animate_motion_elem
      some ((SVG.new svg_x_max svg_y_max (some Color.Black)).add_elem elem_str)

/-- C9 (confirmed): On a Trajectory with an empty sample vector,
`plot_trajectory_svg` panics (the `trajectory_2d.1[0]` indexing at
src/main.rs:357), and its scale factor is `svg_x_max / f64::MIN` — the
max-scan never sees a sample, so the scale comes from the `f64::MIN`
seed rather than any physical extent. -/
theorem plot_trajectory_svg_empty_spec (fmt : ℚ → String) (b : Bool) (b_x b_y sx sy : ℚ) :
    plot_trajectory_svg fmt (b, []) b_x b_y sx sy = none
    ∧ svg_scale_factor [] sx = sx / f64_MIN := by
  constructor
  · rw [plot_trajectory_svg]
    split_ifs <;> rfl
  · rw [svg_scale_factor, traj_x_max, traj_y_max]
    simp

theorem if_gt_eq_max (m x : ℚ) : (if x > m then x else m) = max m x := by
  by_cases h : x > m
  · rw [if_pos h, max_eq_right (le_of_lt h)]
  · rw [if_neg h, max_eq_left (not_lt.1 h)]

theorem traj_x_max_eq_max_fold (samples : List Sample) :
    traj_x_max samples = samples.foldl (fun m s => max m s.2.1.1) f64_MIN := by
  have h : (fun (m : ℚ) (s : Sample) => if s.2.1.1 > m then s.2.1.1 else m)
      = fun (m : ℚ) (s : Sample) => max m s.2.1.1 := by
    funext m s
    exact if_gt_eq_max m s.2.1.1
  rw [traj_x_max, h]

theorem traj_y_max_eq_max_fold (samples : List Sample) :
    traj_y_max samples = samples.foldl (fun m s => max m s.2.1.2) f64_MIN := by
  have h : (fun (m : ℚ) (s : Sample) => if s.2.1.2 > m then s.2.1.2 else m)
      = fun (m : ℚ) (s : Sample) => max m s.2.1.2 := by
    funext m s
    exact if_gt_eq_max m s.2.1.2
  rw [traj_y_max, h]

theorem traj_x_max_cons (s0 : Sample) (rest : List Sample) (h : f64_MIN ≤ s0.2.1.1) :
    traj_x_max (s0 :: rest) = rest.foldl (fun m s => max m s.2.1.1) s0.2.1.1 := by
  rw [traj_x_max_eq_max_fold, List.foldl_cons, max_eq_right h]

theorem traj_y_max_cons (s0 : Sample) (rest : List Sample) (h : f64_MIN ≤ s0.2.1.2) :
    traj_y_max (s0 :: rest) = rest.foldl (fun m s => max m s.2.1.2) s0.2.1.2 := by
  rw [traj_y_max_eq_max_fold, List.foldl_cons, max_eq_right h]

/-- The scale denominator as the spec words it (for comparison with the
code's `svg_scale_factor`): the larger of the trajectory's maximum `x`
and maximum `y`, over the non-empty sample list `s0 :: rest`. -/
def spec_max_extent (s0 : Sample) (rest : List Sample) : ℚ :=
  max (rest.foldl (fun m s => max m s.2.1.1) s0.2.1.1)
      (rest.foldl (fun m s => max m s.2.1.2) s0.2.1.2)

/-- C7 (amended): For a non-empty Trajectory whose coordinates are
(as every finite `f64` is) at least `f64::MIN` and whose larger physical
extent is nonzero, the scale factor equals `svg_x_max` divided by the
maximum of the trajectory's maximum x and maximum y, each sample maps to
`(x·scale, svg_y_max − y·scale)`, and the larger extent lands exactly at
`svg_x_max` after scaling.  (The nonzero-extent hypothesis is forced:
see `plot_trajectory_svg_scale_cex`.) -/
theorem plot_trajectory_svg_scale_spec (s0 : Sample) (rest : List Sample) (sx sy : ℚ)
    (hx0 : f64_MIN ≤ s0.2.1.1) (hy0 : f64_MIN ≤ s0.2.1.2)
    (hnz : spec_max_extent s0 rest ≠ 0) :
    svg_scale_factor (s0 :: rest) sx = sx / spec_max_extent s0 rest
    ∧ spec_max_extent s0 rest * svg_scale_factor (s0 :: rest) sx = sx
    ∧ (∀ s ∈ s0 :: rest,
        svg_point (svg_scale_factor (s0 :: rest) sx) sy s.2.1.1 s.2.1.2
          = (s.2.1.1 * (sx / spec_max_extent s0 rest),
             sy - s.2.1.2 * (sx / spec_max_extent s0 rest))) := by
  have heq : svg_scale_factor (s0 :: rest) sx = sx / spec_max_extent s0 rest := by
    rw [svg_scale_factor, traj_x_max_cons s0 rest hx0, traj_y_max_cons s0 rest hy0,
      spec_max_extent]
  refine ⟨heq, ?_, ?_⟩
  · rw [heq, mul_comm, div_mul_cancel₀ _ hnz]
  · intro s _
    rw [heq, svg_point]

/-- C7 counterexample: The claim as stated fails for the non-empty
trajectory consisting of the single sample at the origin: both maxima
are `0`, and `0` times the scale factor cannot be `500`.  (In the `f64`
run the division `500.0 / 0.0` yields `inf` and `0.0 * inf` is NaN; in
the exact model the Lean convention `q / 0 = 0` applies — either way the
product is not `svg_x_max`.) -/
theorem plot_trajectory_svg_scale_cex :
    spec_max_extent ((0 : ℚ), ((0 : ℚ), (0 : ℚ)), false) []
        * svg_scale_factor [((0 : ℚ), ((0 : ℚ), (0 : ℚ)), false)] 500 ≠ 500 := by
  rw [spec_max_extent, svg_scale_factor, traj_x_max, traj_y_max]
  norm_num [f64_MIN]

/-- Witness for `plot_trajectory_svg_scale_spec` at the single sample
`(0, (1, 2), false)` with `svg_x_max = 500`, `svg_y_max = 300`. -/
theorem plot_trajectory_svg_scale_spec_witness :
    (f64_MIN ≤ (1 : ℚ) ∧ f64_MIN ≤ (2 : ℚ)
     ∧ spec_max_extent ((0 : ℚ), ((1 : ℚ), (2 : ℚ)), false) [] ≠ 0)
    ∧ (svg_scale_factor [((0 : ℚ), ((1 : ℚ), (2 : ℚ)), false)] 500
        = 500 / spec_max_extent ((0 : ℚ), ((1 : ℚ), (2 : ℚ)), false) []
       ∧ spec_max_extent ((0 : ℚ), ((1 : ℚ), (2 : ℚ)), false) []
           * svg_scale_factor [((0 : ℚ), ((1 : ℚ), (2 : ℚ)), false)] 500 = 500
       ∧ (∀ s ∈ [((0 : ℚ), ((1 : ℚ), (2 : ℚ)), false)],
            svg_point (svg_scale_factor [((0 : ℚ), ((1 : ℚ), (2 : ℚ)), false)] 500) 300
                s.2.1.1 s.2.1.2
              = (s.2.1.1 * (500 / spec_max_extent ((0 : ℚ), ((1 : ℚ), (2 : ℚ)), false) []),
                 300 - s.2.1.2
                   * (500 / spec_max_extent ((0 : ℚ), ((1 : ℚ), (2 : ℚ)), false) [])))) :=
  ⟨⟨by norm_num [f64_MIN], by norm_num [f64_MIN], by norm_num [spec_max_extent]⟩,
   plot_trajectory_svg_scale_spec ((0 : ℚ), ((1 : ℚ), (2 : ℚ)), false) [] 500 300
     (by norm_num [f64_MIN]) (by norm_num [f64_MIN]) (by norm_num [spec_max_extent])⟩

theorem isInfix_append_left {α : Type} (x : List α) {p l : List α} (h : p <:+: l) :
    p <:+: x ++ l := by
  rcases h with ⟨s, t, hst⟩
  exact ⟨x ++ s, t, by rw [← hst]; simp [List.append_assoc]⟩

theorem isInfix_append_right {α : Type} (y : List α) {p l : List α} (h : p <:+: l) :
    p <:+: l ++ y := by
  rcases h with ⟨s, t, hst⟩
  exact ⟨s, t ++ y, by rw [← hst]; simp [List.append_assoc]⟩

/-- The accumulated element string never ends in a newline: its last
element, `animate_motion_elem`, ends in `>`.  `to_string_append`
therefore appends one. -/
theorem elem_str_no_newline (a : String) :
    rust_ends_with_newline (a ++ animate_motion_elem) = false := by
  rw [rust_ends_with_newline, String.data_append, List.getLast?_append]
  have h : animate_motion_elem.data.getLast? = some '>' := rfl
  rw [h]
  rfl

/-- Evaluates `to_file_string` of an `SVG` holding one element that ends with
`animate_motion_elem`, in closed form. -/
theorem to_file_string_one_elem (fmt : ℚ → String) (sx sy : ℚ) (a : String) :
    SVG.to_file_string
        ((SVG.new sx sy (some Color.Black)).add_elem (a ++ animate_motion_elem)) fmt
      = svg_header fmt sx sy ++ background_rect Color.Black ++ (a ++ animate_motion_elem)
        ++ "\n" ++ "</svg>\n" := by
  have hnl := elem_str_no_newline a
  rw [SVG.to_file_string]
  simp only [SVG.new, SVG.add_elem, SVG.to_string_append, List.nil_append, List.foldl_cons,
    List.foldl_nil, hnl, Bool.false_eq_true, if_false]

set_option maxRecDepth 20000 in
/-- C8 (confirmed): The SVG document for a (non-empty) Trajectory is,
in this order: the `<svg>` root (explicit width/height, no XML
declaration — the document starts with `<svg `), one full-surface
background `<rect>`, one `<circle>` per retained sample (fill `green`
for entered samples, `blue` otherwise), one target `<rect>`, one
`<path>` with `id="motionPath"` connecting all sample points in order,
one `<circle id="circle">` token, and one `<animateMotion>` element
referencing the path via `<mpath xlink:href="#motionPath" />`, with
`dur="3s"`, `begin="0s"`, `fill="freeze"`, `repeatCount="indefinite"`. -/
theorem plot_trajectory_svg_structure (fmt : ℚ → String) (tr : Trajectory)
    (b_x b_y sx sy : ℚ) (s0 : Sample) (rest : List Sample)
    (hsx : 0 < sx) (hsy : 0 < sy) (htr : tr.2 = s0 :: rest) :
    ∃ svg, plot_trajectory_svg fmt tr b_x b_y sx sy = some svg
      ∧ SVG.to_file_string svg fmt
          = svg_header fmt sx sy ++ background_rect Color.Black
            ++ (String.join ((s0 :: rest).map
                  (circle_marker fmt (svg_scale_factor (s0 :: rest) sx) sy))
                ++ basket_rect fmt (svg_scale_factor (s0 :: rest) sx) sy b_x b_y
                ++ motion_path fmt (svg_scale_factor (s0 :: rest) sx) sy s0 (s0 :: rest)
                ++ token_circle fmt
                ++ animate_motion_elem)
            ++ "\n" ++ "</svg>\n"
      ∧ "<svg ".data <+: (SVG.to_file_string svg fmt).data
      ∧ ¬ ("<?xml".data <+: (SVG.to_file_string svg fmt).data)
      ∧ (∀ s : Sample,
          ("fill=\"" ++ (if s.2.2 then "green" else "blue") ++ "\"").data
            <:+: (circle_marker fmt (svg_scale_factor (s0 :: rest) sx) sy s).data)
      ∧ "id=\"motionPath\"".data
          <:+: (motion_path fmt (svg_scale_factor (s0 :: rest) sx) sy s0 (s0 :: rest)).data
      ∧ "id=\"circle\"".data <:+: (token_circle fmt).data
      ∧ "dur=\"3s\"".data <:+: animate_motion_elem.data
      ∧ "begin=\"0s\"".data <:+: animate_motion_elem.data
      ∧ "fill=\"freeze\"".data <:+: animate_motion_elem.data
      ∧ "repeatCount=\"indefinite\"".data <:+: animate_motion_elem.data
      ∧ "<mpath xlink:href=\"#motionPath\" />".data <:+: animate_motion_elem.data := by
  rw [plot_trajectory_svg, if_neg (not_not_intro hsx), if_neg (not_not_intro hsy), htr]
  refine ⟨_, rfl, ?_⟩
  have hfile := to_file_string_one_elem fmt sx sy
    (String.join ((s0 :: rest).map (circle_marker fmt (svg_scale_factor (s0 :: rest) sx) sy))
      ++ basket_rect fmt (svg_scale_factor (s0 :: rest) sx) sy b_x b_y
      ++ motion_path fmt (svg_scale_factor (s0 :: rest) sx) sy s0 (s0 :: rest)
      ++ token_circle fmt)
  have hsvg : "<svg ".data <+:
      (SVG.to_file_string
        ((SVG.new sx sy (some Color.Black)).add_elem
          (String.join ((s0 :: rest).map
              (circle_marker fmt (svg_scale_factor (s0 :: rest) sx) sy))
            ++ basket_rect fmt (svg_scale_factor (s0 :: rest) sx) sy b_x b_y
            ++ motion_path fmt (svg_scale_factor (s0 :: rest) sx) sy s0 (s0 :: rest)
            ++ token_circle fmt ++ animate_motion_elem)) fmt).data := by
    rw [hfile]
    simp only [svg_header, String.data_append, List.append_assoc]
    exact List.IsPrefix.trans (by decide) (List.prefix_append _ _)
  refine ⟨hfile, hsvg, ?_, ?_, ?_, ?_, by decide, by decide, by decide, by decide, by decide⟩
  · intro hpre
    rcases List.prefix_or_prefix_of_prefix hpre hsvg with h | h
    · exact absurd h (by decide)
    · exact absurd h (by decide)
  · intro s
    cases hs : s.2.2
    · simp only [circle_marker, hs, Bool.false_eq_true, if_false, String.data_append,
        List.append_assoc]
      repeat' (first
        | exact (by decide)
        | exact isInfix_append_right _ (by decide)
        | apply isInfix_append_left)
    · simp only [circle_marker, hs, if_true, String.data_append, List.append_assoc]
      repeat' (first
        | exact (by decide)
        | exact isInfix_append_right _ (by decide)
        | apply isInfix_append_left)
  · simp only [motion_path, String.data_append, List.append_assoc]
    exact isInfix_append_right _ (by decide)
  · simp only [token_circle, String.data_append, List.append_assoc]
    exact isInfix_append_right _ (by decide)

/-- Concrete sample used by the `plot_trajectory_svg_structure` witness. -/
def w_sample : Sample := (0, (0, 1), false)

/-- Concrete formatter (standing in for `{:.2}`) used by the
`plot_trajectory_svg_structure` witness. -/
def w_fmt : ℚ → String := fun _ => "0"

/-- Witness for `plot_trajectory_svg_structure` on a one-sample trajectory. -/
theorem plot_trajectory_svg_structure_witness :
    ((0 : ℚ) < 500 ∧ (0 : ℚ) < 300
     ∧ (((false : Bool), [w_sample]) : Trajectory).2 = w_sample :: [])
    ∧ (∃ svg, plot_trajectory_svg w_fmt ((false : Bool), [w_sample]) 8 3 500 300 = some svg
       ∧ SVG.to_file_string svg w_fmt
           = svg_header w_fmt 500 300 ++ background_rect Color.Black
             ++ (String.join ((w_sample :: []).map
                   (circle_marker w_fmt (svg_scale_factor (w_sample :: []) 500) 300))
                 ++ basket_rect w_fmt (svg_scale_factor (w_sample :: []) 500) 300 8 3
                 ++ motion_path w_fmt (svg_scale_factor (w_sample :: []) 500) 300 w_sample
                     (w_sample :: [])
                 ++ token_circle w_fmt
                 ++ animate_motion_elem)
             ++ "\n" ++ "</svg>\n"
       ∧ "<svg ".data <+: (SVG.to_file_string svg w_fmt).data
       ∧ ¬ ("<?xml".data <+: (SVG.to_file_string svg w_fmt).data)
       ∧ (∀ s : Sample,
           ("fill=\"" ++ (if s.2.2 then "green" else "blue") ++ "\"").data
             <:+: (circle_marker w_fmt (svg_scale_factor (w_sample :: []) 500) 300 s).data)
       ∧ "id=\"motionPath\"".data
           <:+: (motion_path w_fmt (svg_scale_factor (w_sample :: []) 500) 300 w_sample
                   (w_sample :: [])).data
       ∧ "id=\"circle\"".data <:+: (token_circle w_fmt).data
       ∧ "dur=\"3s\"".data <:+: animate_motion_elem.data
       ∧ "begin=\"0s\"".data <:+: animate_motion_elem.data
       ∧ "fill=\"freeze\"".data <:+: animate_motion_elem.data
       ∧ "repeatCount=\"indefinite\"".data <:+: animate_motion_elem.data
       ∧ "<mpath xlink:href=\"#motionPath\" />".data <:+: animate_motion_elem.data) :=
  ⟨⟨by norm_num, by norm_num, rfl⟩,
   plot_trajectory_svg_structure w_fmt ((false : Bool), [w_sample]) 8 3 500 300 w_sample []
     (by norm_num) (by norm_num) rfl⟩
